import Mathlib

/-!
Verification development for the orion-ld-explorer auth/proxy backend
(src/static/____backend-auth-example.py).  The Python endpoints are embedded
as executable Lean functions: JSON values as an inductive type, the stdlib
base64 decoder as an automaton over characters mirroring CPython's
a2b_base64 in its default non-strict mode, json.loads as a fuel-based
recursive-descent routine over ASCII bytes restricted to integer numerals
(JWT numeric claims are integers), and each Flask route as a pure function
from its request data, cookie jar, session state and upstream outcome to a
response/session pair.
-/

namespace OrionLD

/-- JSON values as produced by json.loads, with numerals restricted to
integers. -/
inductive Json where
  | null : Json
  | bool (b : Bool) : Json
  | num (n : Int) : Json
  | str (s : String) : Json
  | arr (xs : List Json) : Json
  | obj (fields : List (String × Json)) : Json
  deriving Repr, BEq

/-- Claim maps: the dictionary obtained from a decoded token payload. -/
abbrev ClaimMap := List (String × Json)

/- ---------------------------------------------------------------------
   Python string helpers
--------------------------------------------------------------------- -/

/-- ASCII lowercasing, modelling str.lower on the ASCII header values the
proxy compares. -/
def asciiLower (s : String) : String := String.mk (s.data.map Char.toLower)

/-- Dot-splitting of a character list, keeping empty runs, as Python
str.split does with an explicit separator. -/
def splitDotChars : List Char → List (List Char)
  | [] => [[]]
  | c :: rest =>
    match splitDotChars rest with
    | g :: gs => if c == '.' then [] :: (g :: gs) else (c :: g) :: gs
    | [] => [[c]]

/-- Python str.split with the dot separator used on every token. -/
def pySplitDot (s : String) : List String :=
  (splitDotChars s.data).map (fun cs => String.mk cs)

/-- Python substring membership test (the operator form used by the proxy
on exception text). -/
def containsSub (needle hay : List Char) : Bool :=
  match hay with
  | [] => needle.isEmpty
  | _ :: t => needle.isPrefixOf hay || containsSub needle t

/-- String-level wrapper for containsSub. -/
def strIn (needle hay : String) : Bool := containsSub needle.data hay.data

/-- The padding step applied before every base64 decode in the source:
payload plus enough equals signs to reach a multiple of four. -/
def padB64 (payload : String) : String :=
  payload ++ String.mk (List.replicate ((4 - payload.length % 4) % 4) '=')

/- ---------------------------------------------------------------------
   base64.b64decode (CPython binascii.a2b_base64, non-strict mode)
--------------------------------------------------------------------- -/

/-- Index of a character in the standard base64 alphabet. -/
def b64Index (c : Char) : Option Nat :=
  if 'A' ≤ c ∧ c ≤ 'Z' then some (c.toNat - 'A'.toNat)
  else if 'a' ≤ c ∧ c ≤ 'z' then some (c.toNat - 'a'.toNat + 26)
  else if '0' ≤ c ∧ c ≤ '9' then some (c.toNat - '0'.toNat + 52)
  else if c = '+' then some 62
  else if c = '/' then some 63
  else none

/-- Valid base64 input characters: alphabet members and padding. -/
def isB64OrPad (c : Char) : Bool := (b64Index c).isSome || c == '='

/-- Bytes of a complete four-sextet group. -/
def quadBytes (a b c d : Nat) : List Nat :=
  [a * 4 + b / 16, (b % 16) * 16 + c / 4, (c % 4) * 64 + d]

/-- Byte of a two-sextet group terminated by padding. -/
def duoBytes (a b : Nat) : List Nat := [a * 4 + b / 16]

/-- Bytes of a three-sextet group terminated by padding. -/
def trioBytes (a b c : Nat) : List Nat :=
  [a * 4 + b / 16, (b % 16) * 16 + c / 4]

/-- CPython's a2b_base64 automaton (default, non-strict mode): invalid
characters are skipped; a padding character is skipped unless it properly
terminates a group of two (with another padding character as the next valid
character) or three sextets, in which case decoding ends and the rest of
the input is ignored; leftover sextets at the end of input are an error. -/
def a2bBase64 : List Char → List Nat → Option (List Nat)
  | [], quad => if quad.isEmpty then some [] else none
  | ch :: rest, quad =>
    if ch == '=' then
      match quad with
      | [a, b] =>
        match rest.find? isB64OrPad with
        | some '=' => some (duoBytes a b)
        | _ => a2bBase64 rest quad
      | [a, b, c] => some (trioBytes a b c)
      | _ => a2bBase64 rest quad
    else
      match b64Index ch with
      | some v =>
        match quad with
        | [a, b, c] => (fun tl => quadBytes a b c v ++ tl) <$> a2bBase64 rest []
        | _ => a2bBase64 rest (quad ++ [v])
      | none => a2bBase64 rest quad

/-- base64.b64decode as called by the source (validate left at False). -/
def pyB64Decode (s : String) : Option (List Nat) := a2bBase64 s.data []

/-- Base64url decoding, stated for comparison with the specification's
words in section 4.1: the spec says the payload segment is decoded as
base64url, which maps the two URL-safe characters to their standard
counterparts before decoding (this is exactly urlsafe_b64decode). -/
def specB64urlDecode (s : String) : Option (List Nat) :=
  pyB64Decode (String.mk (s.data.map
    (fun c => if c == '-' then '+' else if c == '_' then '/' else c)))

/- ---------------------------------------------------------------------
   json.loads
--------------------------------------------------------------------- -/

/-- JSON whitespace characters. -/
def isJsonWs (c : Char) : Bool := c == ' ' || c == '\t' || c == '\n' || c == '\r'

/-- Drop leading JSON whitespace. -/
def skipWs (cs : List Char) : List Char := cs.dropWhile isJsonWs

/-- Value of one hexadecimal digit. -/
def hexVal (c : Char) : Option Nat :=
  if '0' ≤ c ∧ c ≤ '9' then some (c.toNat - '0'.toNat)
  else if 'a' ≤ c ∧ c ≤ 'f' then some (c.toNat - 'a'.toNat + 10)
  else if 'A' ≤ c ∧ c ≤ 'F' then some (c.toNat - 'A'.toNat + 10)
  else none

/-- Body of a JSON string literal after the opening quote: plain characters
and the escapes of RFC 8259; unescaped control characters are rejected as
json.loads does in its default strict mode. -/
def jStringBody : List Char → Option (String × List Char)
  | [] => none
  | ch :: rest =>
    if ch == '"' then some ("", rest)
    else if ch == '\\' then
      match rest with
      | [] => none
      | e :: rest2 =>
        let simpleEsc : Option Char :=
          if e == '"' then some '"'
          else if e == '\\' then some '\\'
          else if e == '/' then some '/'
          else if e == 'b' then some (Char.ofNat 8)
          else if e == 'f' then some (Char.ofNat 12)
          else if e == 'n' then some '\n'
          else if e == 'r' then some '\r'
          else if e == 't' then some '\t'
          else none
        match simpleEsc with
        | some d =>
          match jStringBody rest2 with
          | some (s, r) => some (String.mk [d] ++ s, r)
          | none => none
        | none =>
          if e == 'u' then
            match rest2 with
            | h1 :: h2 :: h3 :: h4 :: rest3 =>
              match hexVal h1, hexVal h2, hexVal h3, hexVal h4 with
              | some a, some b, some c, some d =>
                match jStringBody rest3 with
                | some (s, r) =>
                  some (String.mk [Char.ofNat (a * 4096 + b * 256 + c * 16 + d)] ++ s, r)
                | none => none
              | _, _, _, _ => none
            | _ => none
          else none
    else if ch.toNat < 32 then none
    else
      match jStringBody rest with
      | some (s, r) => some (String.mk [ch] ++ s, r)
      | none => none

/-- Numeric value of a run of decimal digits. -/
def digitsToNat (ds : List Char) : Nat :=
  ds.foldl (fun acc c => acc * 10 + (c.toNat - '0'.toNat)) 0

/-- JSON integer numeral: optional minus sign, then either a single zero or
a nonzero-led digit run.  Fractional parts and exponents are outside the
modelled subset and rejected. -/
def jNumber (cs : List Char) : Option (Int × List Char) :=
  let (neg, cs1) := match cs with
    | '-' :: t => (true, t)
    | _ => (false, cs)
  match cs1 with
  | [] => none
  | d :: t =>
    if !d.isDigit then none
    else
      let (ds, rest) := if d == '0' then ([d], t) else cs1.span Char.isDigit
      let bad := match rest with
        | p :: _ => p == '.' || p == 'e' || p == 'E'
        | [] => false
      if bad then none
      else
        let n : Int := Int.ofNat (digitsToNat ds)
        some (if neg then -n else n, rest)

/-- Dictionary insertion with Python semantics: a repeated key overwrites
the earlier value, so the resulting association list never holds duplicate
keys. -/
def dictInsert (m : List (String × Json)) (k : String) (v : Json) :
    List (String × Json) :=
  if (m.lookup k).isSome then m.map (fun p => if p.1 == k then (k, v) else p)
  else m ++ [(k, v)]

mutual

/-- One JSON value, fuel-bounded recursive descent. -/
def jValue : Nat → List Char → Option (Json × List Char)
  | 0, _ => none
  | fuel + 1, cs =>
    match skipWs cs with
    | '{' :: rest =>
      match skipWs rest with
      | '}' :: rest2 => some (Json.obj [], rest2)
      | _ => jObjBody fuel rest []
    | '[' :: rest =>
      match skipWs rest with
      | ']' :: rest2 => some (Json.arr [], rest2)
      | _ => jArrBody fuel rest []
    | '"' :: rest =>
      match jStringBody rest with
      | some (s, r) => some (Json.str s, r)
      | none => none
    | 't' :: 'r' :: 'u' :: 'e' :: rest => some (Json.bool true, rest)
    | 'f' :: 'a' :: 'l' :: 's' :: 'e' :: rest => some (Json.bool false, rest)
    | 'n' :: 'u' :: 'l' :: 'l' :: rest => some (Json.null, rest)
    | other =>
      match jNumber other with
      | some (n, r) => some (Json.num n, r)
      | none => none

/-- Members of a JSON object after the opening brace or a comma. -/
def jObjBody : Nat → List Char → List (String × Json) →
    Option (Json × List Char)
  | 0, _, _ => none
  | fuel + 1, cs, acc =>
    match skipWs cs with
    | '"' :: rest =>
      match jStringBody rest with
      | some (k, rest2) =>
        match skipWs rest2 with
        | ':' :: rest3 =>
          match jValue fuel rest3 with
          | some (v, rest4) =>
            let acc' := dictInsert acc k v
            match skipWs rest4 with
            | ',' :: rest5 => jObjBody fuel rest5 acc'
            | '}' :: rest5 => some (Json.obj acc', rest5)
            | _ => none
          | none => none
        | _ => none
      | none => none
    | _ => none

/-- Elements of a JSON array after the opening bracket or a comma. -/
def jArrBody : Nat → List Char → List Json → Option (Json × List Char)
  | 0, _, _ => none
  | fuel + 1, cs, acc =>
    match jValue fuel cs with
    | some (v, rest) =>
      let acc' := acc ++ [v]
      match skipWs rest with
      | ',' :: rest2 => jArrBody fuel rest2 acc'
      | ']' :: rest2 => some (Json.arr acc', rest2)
      | _ => none
    | none => none

end

/-- Bytes to characters, restricted to ASCII payloads (json.loads decodes
the byte string as UTF-8 first; the tokens relevant here are ASCII). -/
def asciiChars (bytes : List Nat) : Option (List Char) :=
  bytes.mapM (fun b => if b < 128 then some (Char.ofNat b) else none)

/-- json.loads on a decoded payload byte string: one value, nothing but
whitespace after it. -/
def jsonLoads (bytes : List Nat) : Option Json :=
  match asciiChars bytes with
  | none => none
  | some cs =>
    match jValue (cs.length + 2) cs with
    | some (v, rest) => if (skipWs rest).isEmpty then some v else none
    | none => none

/- ---------------------------------------------------------------------
   Token payload decoding as done by the endpoints
--------------------------------------------------------------------- -/

/-- Decode one payload segment the way every endpoint does: pad with
equals signs to a multiple of four, base64-decode, json-parse.  The result
is kept only when it is a JSON object: on any other value the very next
statement of each handler (listing the keys or reading an attribute)
raises and lands in the same exception branch as a decode failure. -/
def decodeClaims (payload : String) : Option ClaimMap :=
  match pyB64Decode (padB64 payload) with
  | none => none
  | some bytes =>
    match jsonLoads bytes with
    | some (Json.obj fields) => some fields
    | _ => none

/-- Payload extraction in callback, refresh and the user-info endpoint:
the token is split on dots and segment one is indexed directly, so a token
without any dot raises an IndexError that the surrounding handler catches;
no three-segment check is made on these paths. -/
def getPayloadClaims (token : String) : Option ClaimMap :=
  match (pySplitDot token).get? 1 with
  | none => none
  | some payload => decodeClaims payload

/- ---------------------------------------------------------------------
   Tenant resolution (the block repeated five times in the source)
--------------------------------------------------------------------- -/

/-- Python dict .get with a default. -/
def pyDictGet (m : ClaimMap) (k : String) (d : Json) : Json :=
  (m.lookup k).getD d

/-- The tenant extraction chain shared by callback, refresh, user-info,
verify-token and direct-token: the tenant variable starts at the literal
Default; if the key TenantId is in the claim map, a non-empty list value
contributes its first element and a string value contributes itself, any
other value leaves the variable untouched, and no later key is consulted;
only when TenantId is absent are tenant_id, tenantId, Tenant and tenant
tried in order, and only when all five keys are absent does the fallback
apply (the literal Default everywhere except the user-info endpoint, which
falls back to the session tenant). -/
def resolveTenantFrom (token_data : ClaimMap) (fallback : Json) : Json :=
  match token_data.lookup "TenantId" with
  | some v =>
    match v with
    | Json.arr (x :: _) => x
    | Json.str s => Json.str s
    | _ => Json.str "Default"
  | none =>
    match token_data.lookup "tenant_id" with
    | some v => v
    | none =>
      match token_data.lookup "tenantId" with
      | some v => v
      | none =>
        match token_data.lookup "Tenant" with
        | some v => v
        | none =>
          match token_data.lookup "tenant" with
          | some v => v
          | none => fallback

/- ---------------------------------------------------------------------
   HTTP data model
--------------------------------------------------------------------- -/

/-- One Set-Cookie emitted on a response. -/
structure SetCookie where
  name : String
  value : String
  max_age : Option Int
  http_only : Bool
  secure : Bool
  samesite : String
  path : String
  deriving Repr, BEq

/-- Response bodies distinguished in the model. -/
inductive RespBody where
  | empty : RespBody
  | jsonBody (j : Json) : RespBody
  | redirect (location : String) : RespBody
  | content (data : String) : RespBody
  deriving Repr, BEq

/-- An HTTP response as assembled by a handler. -/
structure HttpResponse where
  status : Nat
  body : RespBody
  set_cookies : List SetCookie
  deleted_cookies : List String
  headers : List (String × String)
  deriving Repr, BEq

/-- Flask jsonify with a status: JSON body, no cookies, no extra headers. -/
def jsonResp (status : Nat) (j : Json) : HttpResponse :=
  { status := status, body := RespBody.jsonBody j, set_cookies := [],
    deleted_cookies := [], headers := [] }

/-- The user record written into the session. -/
structure UserRec where
  username : Json
  tenant : Json
  deriving Repr, BEq

/-- Server-side session state touched by the handlers. -/
structure SessionState where
  oauth_state : Option String
  user : Option UserRec
  tenant : Option Json
  deriving Repr, BEq

/-- The token pair parsed from a successful identity-provider response. -/
structure TokenPair where
  access_token : String
  refresh_token : String
  expires_in : Int
  deriving Repr, BEq

/-- Outcome of the outbound token-endpoint call: a non-success status with
its body text, or a parsed token pair. -/
inductive ExchangeOutcome where
  | failure (status : Nat) (text : String) : ExchangeOutcome
  | success (tokens : TokenPair) : ExchangeOutcome
  deriving Repr, BEq

/-- The httponly Lax cookie used for both tokens. -/
def tokenCookie (name value : String) (age : Int) : SetCookie :=
  { name := name, value := value, max_age := some age, http_only := true,
    secure := false, samesite := "Lax", path := "/" }

/- ---------------------------------------------------------------------
   Auth endpoints
--------------------------------------------------------------------- -/

/-- The state check opening the callback handler: the query value must be
non-empty (Python truthiness) and equal to the stored session value. -/
def stateValid (state stored : Option String) : Bool :=
  match state with
  | none => false
  | some s => !(s == "") && (some s == stored)

/-- Session update shared by callback and refresh after cookies are set:
decode the new access token's payload and store username and tenant; any
failure inside this block is caught and logged, leaving the session as it
was. -/
def storeUserFromToken (token : String) (sess : SessionState) : SessionState :=
  match getPayloadClaims token with
  | some token_data =>
    { sess with
      user := some
        { username := pyDictGet token_data "preferred_username" (Json.str "unknown_user")
          tenant := resolveTenantFrom token_data (Json.str "Default") } }
  | none => sess

/-- The authorization-code callback handler, as a function of the state
and code query parameters, the current session, the frontend redirect
target and the outcome of the token exchange.  The exchange outcome is an
argument so that the reject branches are literally independent of it. -/
def callback (state code : Option String) (sess : SessionState)
    (frontend : String) (ex : ExchangeOutcome) :
    HttpResponse × SessionState :=
  if !(stateValid state sess.oauth_state) then
    (jsonResp 400 (Json.obj [("error", Json.str "Invalid state parameter")]), sess)
  else
    match code with
    | none =>
      (jsonResp 400 (Json.obj [("error", Json.str "No authorization code provided")]), sess)
    | some c =>
      if c == "" then
        (jsonResp 400 (Json.obj [("error", Json.str "No authorization code provided")]), sess)
      else
        match ex with
        | ExchangeOutcome.failure _ txt =>
          (jsonResp 400 (Json.obj [("error", Json.str ("Failed to retrieve token: " ++ txt))]), sess)
        | ExchangeOutcome.success tokens =>
          let resp : HttpResponse :=
            { status := 302
              body := RespBody.redirect frontend
              set_cookies :=
                [tokenCookie "access_token" tokens.access_token tokens.expires_in,
                 tokenCookie "refresh_token" tokens.refresh_token (tokens.expires_in * 2)]
              deleted_cookies := ["logged_out"]
              headers := [] }
          (resp, storeUserFromToken tokens.access_token sess)

/-- The refresh handler: requires a non-empty refresh_token cookie, then
mirrors the callback success path with a JSON success body. -/
def refresh_token (cookies : List (String × String)) (sess : SessionState)
    (ex : ExchangeOutcome) : HttpResponse × SessionState :=
  match cookies.lookup "refresh_token" with
  | none =>
    (jsonResp 401 (Json.obj [("error", Json.str "No refresh token available")]), sess)
  | some rt =>
    if rt == "" then
      (jsonResp 401 (Json.obj [("error", Json.str "No refresh token available")]), sess)
    else
      match ex with
      | ExchangeOutcome.failure _ _ =>
        (jsonResp 401 (Json.obj [("error", Json.str "Failed to refresh token")]), sess)
      | ExchangeOutcome.success tokens =>
        let resp : HttpResponse :=
          { status := 200
            body := RespBody.jsonBody (Json.obj [("success", Json.bool true)])
            set_cookies :=
              [tokenCookie "access_token" tokens.access_token tokens.expires_in,
               tokenCookie "refresh_token" tokens.refresh_token (tokens.expires_in * 2)]
            deleted_cookies := []
            headers := [] }
        (resp, storeUserFromToken tokens.access_token sess)

/-- The user-info endpoint: read-only on cookies, always HTTP 200.  The
exception text accompanying a decode failure is abstracted to a fixed
string.  On success the resolved tenant is also written back into the
session, with the stored session tenant as last-resort fallback. -/
def get_user_info (cookies : List (String × String)) (sess : SessionState) :
    HttpResponse × SessionState :=
  match cookies.lookup "access_token" with
  | none => (jsonResp 200 (Json.obj [("authenticated", Json.bool false)]), sess)
  | some access_token =>
    if access_token == "" then
      (jsonResp 200 (Json.obj [("authenticated", Json.bool false)]), sess)
    else
      match getPayloadClaims access_token with
      | none =>
        (jsonResp 200 (Json.obj [("authenticated", Json.bool false),
                                 ("error", Json.str "token decode error")]), sess)
      | some token_data =>
        let username := pyDictGet token_data "preferred_username" (Json.str "unknown_user")
        let tenant := resolveTenantFrom token_data (sess.tenant.getD (Json.str "Default"))
        ((jsonResp 200 (Json.obj [("authenticated", Json.bool true),
                                  ("user", Json.obj [("username", username),
                                                     ("tenant", tenant)])])),
         { sess with tenant := some tenant })

/-- Integer view of a JSON value under Python arithmetic: numbers are
themselves, booleans coerce, anything else raises a TypeError. -/
def jInt (v : Json) : Option Int :=
  match v with
  | Json.num n => some n
  | Json.bool b => some (if b then 1 else 0)
  | _ => none

/-- The verify-token handler: takes the parsed JSON request body (an
object, when one parsed at all), demands an access_token entry, a
three-segment token and a decodable payload, then writes the session user,
echoes the submitted token back as the access cookie with max-age exp
minus iat (each defaulted independently), and never calls the identity
provider.  The cookie max-age is computed after the session write, so a
non-numeric exp or iat lands in the parse-error branch with the session
already updated, exactly as in the source. -/
def verify_token (data : Option (List (String × Json))) (sess : SessionState) :
    HttpResponse × SessionState :=
  match data with
  | none =>
    (jsonResp 400 (Json.obj [("error", Json.str "No access token provided")]), sess)
  | some fields =>
    if fields.isEmpty then
      (jsonResp 400 (Json.obj [("error", Json.str "No access token provided")]), sess)
    else
      match fields.lookup "access_token" with
      | none =>
        (jsonResp 400 (Json.obj [("error", Json.str "No access token provided")]), sess)
      | some (Json.str access_token) =>
        (match pySplitDot access_token with
         | [_, payload, _] =>
           (match decodeClaims payload with
            | none =>
              (jsonResp 400 (Json.obj [("error", Json.str "Error parsing token")]), sess)
            | some token_data =>
              let username := pyDictGet token_data "preferred_username" (Json.str "unknown_user")
              let tenant := resolveTenantFrom token_data (Json.str "Default")
              let user : UserRec := { username := username, tenant := tenant }
              let sess' := { sess with user := some user }
              match jInt (pyDictGet token_data "exp" (Json.num 3600)),
                    jInt (pyDictGet token_data "iat" (Json.num 0)) with
              | some e, some i =>
                ({ status := 200
                   body := RespBody.jsonBody
                     (Json.obj [("success", Json.bool true),
                                ("user", Json.obj [("username", username),
                                                   ("tenant", tenant)])])
                   set_cookies := [tokenCookie "access_token" access_token (e - i)]
                   deleted_cookies := []
                   headers := [] }, sess')
              | _, _ =>
                (jsonResp 400 (Json.obj [("error", Json.str "Error parsing token")]), sess'))
         | _ =>
           (jsonResp 400 (Json.obj [("error", Json.str "Invalid token format")]), sess))
      | some _ =>
        (jsonResp 400 (Json.obj [("error", Json.str "Error parsing token")]), sess)

/- ---------------------------------------------------------------------
   NGSI-LD proxy
--------------------------------------------------------------------- -/

/-- Case-insensitive header lookup, as Flask request.headers.get does. -/
def headerGet (hs : List (String × String)) (k : String) : Option String :=
  (hs.find? (fun p => asciiLower p.1 == asciiLower k)).map (fun p => p.2)

/-- The CORS preflight response returned on OPTIONS without any further
processing: an empty 200 with the three fixed CORS headers. -/
def corsPreflight : HttpResponse :=
  { status := 200, body := RespBody.empty, set_cookies := [],
    deleted_cookies := [],
    headers :=
      [("Access-Control-Allow-Origin", "*"),
       ("Access-Control-Allow-Headers", "Content-Type, Authorization, NGSILD-Tenant"),
       ("Access-Control-Allow-Methods", "GET, POST, PUT, DELETE, PATCH, OPTIONS")] }

/-- The tenant-forwarding condition of the proxy: the value is truthy,
its lowercasing is not the word default, and it is not the literal
Synchro. -/
def forwardTenant (t : String) : Bool :=
  (t != "") && (asciiLower t != "default") && (t != "Synchro")

/-- Headers placed on the forwarded broker request: Content-Type and
Accept from the inbound request or the JSON default, the tenant header
only when its value passes the forwarding condition, and Authorization
when present. -/
def outboundHeaders (reqHeaders : List (String × String)) :
    List (String × String) :=
  let base :=
    [("Content-Type", (headerGet reqHeaders "Content-Type").getD "application/json"),
     ("Accept", (headerGet reqHeaders "Accept").getD "application/json")]
  let withTenant :=
    match headerGet reqHeaders "NGSILD-Tenant" with
    | some t => if forwardTenant t then base ++ [("NGSILD-Tenant", t)] else base
    | none => base
  match headerGet reqHeaders "Authorization" with
  | some a => withTenant ++ [("Authorization", a)]
  | none => withTenant

/-- Response headers copied through from the broker. -/
def allowedRespHeader (name : String) : Bool :=
  let l := asciiLower name
  l == "content-type" || l == "content-length" || l == "cache-control" ||
  l == "etag" || l == "last-modified"

/-- Outcome of the forwarded broker call: a response, or a transport
exception carrying its message text. -/
inductive BrokerOutcome where
  | response (status : Nat) (content : String) (headers : List (String × String)) : BrokerOutcome
  | exception (msg : String) : BrokerOutcome
  deriving Repr, BEq

/-- The proxy handler.  The broker is a function from the forwarded
headers to an outcome, so the branches that answer before forwarding are
literally independent of it.  OPTIONS short-circuits to the preflight
response; a missing or empty access-token cookie yields 401; a transport
exception maps to 503 when its message mentions a refused connection and
to 500 otherwise, both bodies carrying error and technical_details; a
broker response is passed through with the allowlisted headers plus the
permissive CORS pair. -/
def ngsi_ld_proxy (method : String) (cookies : List (String × String))
    (reqHeaders : List (String × String))
    (broker : List (String × String) → BrokerOutcome) : HttpResponse :=
  if method == "OPTIONS" then corsPreflight
  else
    match cookies.lookup "access_token" with
    | none =>
      jsonResp 401 (Json.obj [("error", Json.str "Unauthorized access. Please log in first.")])
    | some tok =>
      if tok == "" then
        jsonResp 401 (Json.obj [("error", Json.str "Unauthorized access. Please log in first.")])
      else
        match broker (outboundHeaders reqHeaders) with
        | BrokerOutcome.response st content hs =>
          { status := st
            body := RespBody.content content
            set_cookies := []
            deleted_cookies := []
            headers :=
              (hs.filter (fun p => allowedRespHeader p.1)) ++
              [("Access-Control-Allow-Origin", "*"),
               ("Access-Control-Allow-Headers", "Content-Type, Authorization, NGSILD-Tenant")] }
        | BrokerOutcome.exception msg =>
          if strIn "Connection refused" msg then
            jsonResp 503 (Json.obj
              [("error", Json.str "Unable to connect to the NGSI-LD broker. The service may be unavailable."),
               ("technical_details", Json.str msg)])
          else
            jsonResp 500 (Json.obj
              [("error", Json.str "Error communicating with the NGSI-LD broker"),
               ("technical_details", Json.str msg)])

/- ---------------------------------------------------------------------
   Helper lemmas
--------------------------------------------------------------------- -/

/-- The session-update block of callback and refresh never touches the
stored OAuth state. -/
theorem storeUser_oauth_state (t : String) (s : SessionState) :
    (storeUserFromToken t s).oauth_state = s.oauth_state := by
  unfold storeUserFromToken
  cases getPayloadClaims t <;> rfl

/- ---------------------------------------------------------------------
   Claim C1 (corrected)
--------------------------------------------------------------------- -/

/-- Claim C1, counterexample: with TenantId bound to an empty array and
tenant_id bound to the string acme, resolution does not fall through to
tenant_id as the claim states; it stops at the literal Default. -/
theorem tenantId_empty_array_no_fallthrough_cex :
    resolveTenantFrom [("TenantId", Json.arr []), ("tenant_id", Json.str "acme")]
        (Json.str "Default") = Json.str "Default"
    ∧ resolveTenantFrom [("TenantId", Json.arr []), ("tenant_id", Json.str "acme")]
        (Json.str "Default") ≠ Json.str "acme" := by
  refine ⟨rfl, ?_⟩
  intro h
  rw [show resolveTenantFrom [("TenantId", Json.arr []), ("tenant_id", Json.str "acme")]
        (Json.str "Default") = Json.str "Default" from rfl] at h
  injection h with h'
  exact absurd h' (by decide)

/-- Claim C1, amended: tenant resolution follows the precedence order
TenantId, tenant_id, tenantId, Tenant, tenant, then the fallback, where a
TenantId that is a non-empty array yields its first element and a string
yields itself; but a TenantId that is present as an empty array yields the
literal Default immediately, without consulting the remaining candidate
fields — fall-through happens only when the TenantId key is absent. -/
theorem tenant_resolution_precedence (m : ClaimMap) (fb : Json) :
    (∀ x xs, m.lookup "TenantId" = some (Json.arr (x :: xs)) →
      resolveTenantFrom m fb = x)
    ∧ (∀ s, m.lookup "TenantId" = some (Json.str s) →
      resolveTenantFrom m fb = Json.str s)
    ∧ (m.lookup "TenantId" = some (Json.arr []) →
      resolveTenantFrom m fb = Json.str "Default")
    ∧ (m.lookup "TenantId" = none → ∀ v, m.lookup "tenant_id" = some v →
      resolveTenantFrom m fb = v)
    ∧ (m.lookup "TenantId" = none → m.lookup "tenant_id" = none →
      ∀ v, m.lookup "tenantId" = some v → resolveTenantFrom m fb = v)
    ∧ (m.lookup "TenantId" = none → m.lookup "tenant_id" = none →
      m.lookup "tenantId" = none → ∀ v, m.lookup "Tenant" = some v →
      resolveTenantFrom m fb = v)
    ∧ (m.lookup "TenantId" = none → m.lookup "tenant_id" = none →
      m.lookup "tenantId" = none → m.lookup "Tenant" = none →
      ∀ v, m.lookup "tenant" = some v → resolveTenantFrom m fb = v)
    ∧ (m.lookup "TenantId" = none → m.lookup "tenant_id" = none →
      m.lookup "tenantId" = none → m.lookup "Tenant" = none →
      m.lookup "tenant" = none → resolveTenantFrom m fb = fb) := by
  refine ⟨?_, ?_, ?_, ?_, ?_, ?_, ?_, ?_⟩
  · intro x xs h; simp [resolveTenantFrom, h]
  · intro s h; simp [resolveTenantFrom, h]
  · intro h; simp [resolveTenantFrom, h]
  · intro h v hv; simp [resolveTenantFrom, h, hv]
  · intro h h2 v hv; simp [resolveTenantFrom, h, h2, hv]
  · intro h h2 h3 v hv; simp [resolveTenantFrom, h, h2, h3, hv]
  · intro h h2 h3 h4 v hv; simp [resolveTenantFrom, h, h2, h3, h4, hv]
  · intro h h2 h3 h4 h5; simp [resolveTenantFrom, h, h2, h3, h4, h5]

/-- Claim C1, witness: the amended precedence theorem applied at concrete
claim maps exercising each branch. -/
theorem tenant_resolution_precedence_witness :
    resolveTenantFrom [("TenantId", Json.arr [Json.str "T1"]), ("tenant", Json.str "z")]
        (Json.str "F") = Json.str "T1"
    ∧ resolveTenantFrom [("TenantId", Json.str "S")] (Json.str "F") = Json.str "S"
    ∧ resolveTenantFrom [("TenantId", Json.arr []), ("tenant_id", Json.str "a")]
        (Json.str "F") = Json.str "Default"
    ∧ resolveTenantFrom [("tenant_id", Json.str "t2"), ("Tenant", Json.str "x")]
        (Json.str "F") = Json.str "t2"
    ∧ resolveTenantFrom [("tenantId", Json.str "t3")] (Json.str "F") = Json.str "t3"
    ∧ resolveTenantFrom [("Tenant", Json.str "t4")] (Json.str "F") = Json.str "t4"
    ∧ resolveTenantFrom [("tenant", Json.str "t5")] (Json.str "F") = Json.str "t5"
    ∧ resolveTenantFrom [] (Json.str "F") = Json.str "F" :=
  ⟨(tenant_resolution_precedence
      [("TenantId", Json.arr [Json.str "T1"]), ("tenant", Json.str "z")] (Json.str "F")).1 _ _ rfl,
   (tenant_resolution_precedence [("TenantId", Json.str "S")] (Json.str "F")).2.1 _ rfl,
   (tenant_resolution_precedence
      [("TenantId", Json.arr []), ("tenant_id", Json.str "a")] (Json.str "F")).2.2.1 rfl,
   (tenant_resolution_precedence
      [("tenant_id", Json.str "t2"), ("Tenant", Json.str "x")] (Json.str "F")).2.2.2.1 rfl _ rfl,
   (tenant_resolution_precedence
      [("tenantId", Json.str "t3")] (Json.str "F")).2.2.2.2.1 rfl rfl _ rfl,
   (tenant_resolution_precedence
      [("Tenant", Json.str "t4")] (Json.str "F")).2.2.2.2.2.1 rfl rfl rfl _ rfl,
   (tenant_resolution_precedence
      [("tenant", Json.str "t5")] (Json.str "F")).2.2.2.2.2.2.1 rfl rfl rfl rfl _ rfl,
   (tenant_resolution_precedence [] (Json.str "F")).2.2.2.2.2.2.2 rfl rfl rfl rfl rfl⟩

/- ---------------------------------------------------------------------
   Claim C2 (corrected)
--------------------------------------------------------------------- -/

/-- Claim C2, counterexample: the stored OAuth state is never discarded,
so the very same state value validates on two successive callbacks — the
second callback succeeds with a 302 instead of the 400 the claim
requires for an already-consumed state. -/
theorem oauth_state_validates_twice_cex :
    (callback (some "A") (some "c")
        { oauth_state := some "A", user := none, tenant := none } "http://app"
        (ExchangeOutcome.success
          { access_token := "t", refresh_token := "r", expires_in := 60 })).1.status = 302
    ∧ (callback (some "A") (some "c")
        ((callback (some "A") (some "c")
            { oauth_state := some "A", user := none, tenant := none } "http://app"
            (ExchangeOutcome.success
              { access_token := "t", refresh_token := "r", expires_in := 60 })).2) "http://app"
        (ExchangeOutcome.success
          { access_token := "t", refresh_token := "r", expires_in := 60 })).1.status = 302 :=
  ⟨rfl, rfl⟩

/-- Claim C2, amended: a callback whose state parameter is missing, empty
or different from the stored OAuth state is answered with HTTP 400, with
no token exchange consulted and the session and cookies left unchanged;
however the stored state is not discarded after validation — every branch
of the handler leaves it in place — so a state that validated once
validates again. -/
theorem callback_invalid_state_rejected (state code : Option String)
    (sess : SessionState) (f : String) (ex : ExchangeOutcome)
    (h : stateValid state sess.oauth_state = false) :
    callback state code sess f ex
      = (jsonResp 400 (Json.obj [("error", Json.str "Invalid state parameter")]), sess)
    ∧ ∀ (st' cd' : Option String) (sess' : SessionState) (f' : String)
        (ex' : ExchangeOutcome),
        ((callback st' cd' sess' f' ex').2).oauth_state = sess'.oauth_state := by
  constructor
  · simp [callback, h]
  · intro st' cd' sess' f' ex'
    unfold callback
    split
    · rfl
    · cases cd' with
      | none => rfl
      | some c =>
        by_cases hc : c == ""
        · simp [hc]
        · simp [hc]
          cases ex' with
          | failure st txt => rfl
          | success tokens => exact storeUser_oauth_state _ _

/-- Claim C2, witness: a mismatched state is rejected with the session
untouched, and a successful callback retains the stored state. -/
theorem callback_invalid_state_rejected_witness :
    callback (some "A") (some "c")
        { oauth_state := some "B", user := none, tenant := none } "http://app"
        (ExchangeOutcome.failure 500 "x")
      = (jsonResp 400 (Json.obj [("error", Json.str "Invalid state parameter")]),
         { oauth_state := some "B", user := none, tenant := none })
    ∧ ((callback (some "A") (some "c")
          { oauth_state := some "A", user := none, tenant := none } "http://app"
          (ExchangeOutcome.success
            { access_token := "t", refresh_token := "r", expires_in := 60 })).2).oauth_state
        = some "A" :=
  ⟨(callback_invalid_state_rejected (some "A") (some "c")
      { oauth_state := some "B", user := none, tenant := none } "http://app"
      (ExchangeOutcome.failure 500 "x") rfl).1,
   (callback_invalid_state_rejected (some "A") (some "c")
      { oauth_state := some "B", user := none, tenant := none } "http://app"
      (ExchangeOutcome.failure 500 "x") rfl).2 (some "A") (some "c")
      { oauth_state := some "A", user := none, tenant := none } "http://app"
      (ExchangeOutcome.success { access_token := "t", refresh_token := "r", expires_in := 60 })⟩

/- ---------------------------------------------------------------------
   Claim C3 (code bug)
--------------------------------------------------------------------- -/

/-- Claim C3: the handlers decode the payload with the standard-alphabet
base64 decoder, not a base64url decoder as the claim and specification
state.  The segment eyI_PyI6MX0 is valid unpadded base64url for the JSON
object binding the key of two question marks to 1, so the claim predicts
a successful decode; the code discards the URL-safe underscore character,
is left with a data length of two modulo four and one padding character,
and fails — verify-token answers 400 Error parsing token on a token the
claim says decodes.  The second and third conjuncts exhibit the
divergence between the specification's base64url decoding and the
decoder the code actually calls on the same padded segment. -/
theorem verify_token_b64url_divergence :
    (verify_token (some [("access_token", Json.str "h.eyI_PyI6MX0.s")])
        { oauth_state := none, user := none, tenant := none }).1
      = jsonResp 400 (Json.obj [("error", Json.str "Error parsing token")])
    ∧ jsonLoads ((specB64urlDecode (padB64 "eyI_PyI6MX0")).getD [])
      = some (Json.obj [("??", Json.num 1)])
    ∧ pyB64Decode (padB64 "eyI_PyI6MX0") = none :=
  ⟨rfl, rfl, rfl⟩

/- ---------------------------------------------------------------------
   Claim C4 (confirmed)
--------------------------------------------------------------------- -/

/-- Claim C4: the outbound broker request built by the proxy carries the
tenant header exactly when the inbound tenant header holds a non-empty
value that is not case-insensitively default and not the literal Synchro;
Synchro is never forwarded, acme always is, and at most one tenant entry
is ever attached. -/
theorem tenant_header_forwarding (hs : List (String × String)) :
    (∀ v, ("NGSILD-Tenant", v) ∈ outboundHeaders hs ↔
      (headerGet hs "NGSILD-Tenant" = some v ∧ ¬ v = ""
        ∧ ¬ asciiLower v = "default" ∧ ¬ v = "Synchro"))
    ∧ (headerGet hs "NGSILD-Tenant" = some "Synchro" →
        ∀ v, ("NGSILD-Tenant", v) ∉ outboundHeaders hs)
    ∧ (headerGet hs "NGSILD-Tenant" = some "acme" →
        ("NGSILD-Tenant", "acme") ∈ outboundHeaders hs)
    ∧ ((outboundHeaders hs).filter (fun p => p.1 == "NGSILD-Tenant")).length ≤ 1 := by
  have core : ∀ v, ("NGSILD-Tenant", v) ∈ outboundHeaders hs ↔
      (headerGet hs "NGSILD-Tenant" = some v ∧ forwardTenant v = true) := by
    intro v
    unfold outboundHeaders
    cases hT : headerGet hs "NGSILD-Tenant" with
    | none =>
      cases hA : headerGet hs "Authorization" with
      | none => simp
      | some a => simp
    | some t =>
      cases hft : forwardTenant t with
      | false =>
        cases hA : headerGet hs "Authorization" with
        | none =>
          simp [hft]
          rintro rfl
          exact hft
        | some a =>
          simp [hft]
          rintro rfl
          exact hft
      | true =>
        cases hA : headerGet hs "Authorization" with
        | none =>
          simp [hft]
          constructor
          · rintro rfl; exact ⟨rfl, hft⟩
          · rintro ⟨rfl, _⟩; rfl
        | some a =>
          simp [hft]
          constructor
          · rintro rfl; exact ⟨rfl, hft⟩
          · rintro ⟨rfl, _⟩; rfl
  have fwd_iff : ∀ t, forwardTenant t = true ↔
      (¬ t = "" ∧ ¬ asciiLower t = "default" ∧ ¬ t = "Synchro") := by
    intro t
    simp [forwardTenant, and_assoc]
  refine ⟨?_, ?_, ?_, ?_⟩
  · intro v
    rw [core v, fwd_iff v]
  · intro hT v hv
    rcases (core v).1 hv with ⟨h1, hfv⟩
    rw [hT] at h1
    have hv' : v = "Synchro" := (Option.some.inj h1).symm
    subst hv'
    exact absurd hfv (by decide)
  · intro hT
    exact (core "acme").2 ⟨hT, by decide⟩
  · unfold outboundHeaders
    cases hT : headerGet hs "NGSILD-Tenant" with
    | none =>
      cases hA : headerGet hs "Authorization" with
      | none => simp [List.filter]
      | some a => simp [List.filter]
    | some t =>
      cases hft : forwardTenant t with
      | false =>
        cases hA : headerGet hs "Authorization" with
        | none => simp [hft, List.filter]
        | some a => simp [hft, List.filter]
      | true =>
        cases hA : headerGet hs "Authorization" with
        | none => simp [hft, List.filter]
        | some a => simp [hft, List.filter]

/-- Claim C4, witness: forwarding applied to concrete inbound headers —
acme attached, Synchro dropped. -/
theorem tenant_header_forwarding_witness :
    ("NGSILD-Tenant", "acme") ∈ outboundHeaders [("NGSILD-Tenant", "acme")]
    ∧ ("NGSILD-Tenant", "Synchro") ∉ outboundHeaders [("NGSILD-Tenant", "Synchro")] :=
  ⟨(tenant_header_forwarding [("NGSILD-Tenant", "acme")]).2.2.1 rfl,
   (tenant_header_forwarding [("NGSILD-Tenant", "Synchro")]).2.1 rfl "Synchro"⟩

/- ---------------------------------------------------------------------
   Claim C5 (confirmed)
--------------------------------------------------------------------- -/

/-- Claim C5: every successful callback and every successful refresh that
receives a token pair with expires_in n sets the access-token cookie with
max-age n and the refresh-token cookie with max-age two times n. -/
theorem cookie_max_age_policy (st c' : String) (h1 : ¬ st = "") (h2 : ¬ c' = "")
    (u : Option UserRec) (t : Option Json) (f : String) (tp : TokenPair)
    (cookies : List (String × String)) (sess2 : SessionState) (rt : String)
    (h3 : cookies.lookup "refresh_token" = some rt) (h4 : ¬ rt = "") :
    ((callback (some st) (some c') { oauth_state := some st, user := u, tenant := t } f
        (ExchangeOutcome.success tp)).1.set_cookies.map (fun ck => (ck.name, ck.max_age))
      = [("access_token", some tp.expires_in), ("refresh_token", some (2 * tp.expires_in))])
    ∧ ((refresh_token cookies sess2 (ExchangeOutcome.success tp)).1.set_cookies.map
        (fun ck => (ck.name, ck.max_age))
      = [("access_token", some tp.expires_in), ("refresh_token", some (2 * tp.expires_in))]) := by
  constructor
  · simp [callback, stateValid, h1, h2, tokenCookie, Int.mul_comm]
  · simp [refresh_token, h3, h4, tokenCookie, Int.mul_comm]

/-- Claim C5, witness: the cookie policy applied to a concrete pair with
expires_in 60 — access cookie 60, refresh cookie 120. -/
theorem cookie_max_age_policy_witness :
    ((callback (some "A") (some "c") { oauth_state := some "A", user := none, tenant := none }
        "http://app" (ExchangeOutcome.success
          { access_token := "t", refresh_token := "r", expires_in := 60 })).1.set_cookies.map
        (fun ck => (ck.name, ck.max_age))
      = [("access_token", some 60), ("refresh_token", some 120)])
    ∧ ((refresh_token [("refresh_token", "r")]
        { oauth_state := none, user := none, tenant := none }
        (ExchangeOutcome.success
          { access_token := "t", refresh_token := "r", expires_in := 60 })).1.set_cookies.map
        (fun ck => (ck.name, ck.max_age))
      = [("access_token", some 60), ("refresh_token", some 120)]) :=
  cookie_max_age_policy "A" "c" (by decide) (by decide) none none "http://app"
    { access_token := "t", refresh_token := "r", expires_in := 60 }
    [("refresh_token", "r")] { oauth_state := none, user := none, tenant := none }
    "r" rfl (by decide)

/- ---------------------------------------------------------------------
   Claim C6 (confirmed)
--------------------------------------------------------------------- -/

/-- Claim C6: on non-OPTIONS requests the proxy's locally generated
failures are exactly 401 with the fixed unauthorized body when the access
cookie is absent (the broker then being irrelevant to the answer), 503
with error and technical_details when the transport reports a refused
connection, and 500 with the same two fields on any other transport
failure. -/
theorem proxy_failure_responses (method : String) (hm : ¬ method = "OPTIONS")
    (cookies hs : List (String × String))
    (broker broker2 : List (String × String) → BrokerOutcome) (msg : String) :
    (cookies.lookup "access_token" = none →
      ngsi_ld_proxy method cookies hs broker
        = jsonResp 401 (Json.obj [("error", Json.str "Unauthorized access. Please log in first.")])
      ∧ ngsi_ld_proxy method cookies hs broker = ngsi_ld_proxy method cookies hs broker2)
    ∧ (∀ tok, cookies.lookup "access_token" = some tok → ¬ tok = "" →
        strIn "Connection refused" msg = true →
        ngsi_ld_proxy method cookies hs (fun _ => BrokerOutcome.exception msg)
          = jsonResp 503 (Json.obj
              [("error", Json.str "Unable to connect to the NGSI-LD broker. The service may be unavailable."),
               ("technical_details", Json.str msg)]))
    ∧ (∀ tok, cookies.lookup "access_token" = some tok → ¬ tok = "" →
        strIn "Connection refused" msg = false →
        ngsi_ld_proxy method cookies hs (fun _ => BrokerOutcome.exception msg)
          = jsonResp 500 (Json.obj
              [("error", Json.str "Error communicating with the NGSI-LD broker"),
               ("technical_details", Json.str msg)])) := by
  refine ⟨?_, ?_, ?_⟩
  · intro hc
    constructor <;> simp [ngsi_ld_proxy, hm, hc]
  · intro tok hc htok hmsg
    simp [ngsi_ld_proxy, hm, hc, htok, hmsg]
  · intro tok hc htok hmsg
    simp [ngsi_ld_proxy, hm, hc, htok, hmsg]

/-- Claim C6, witness: the three failure shapes at concrete requests. -/
theorem proxy_failure_responses_witness :
    ngsi_ld_proxy "GET" [] [] (fun _ => BrokerOutcome.exception "a")
      = jsonResp 401 (Json.obj [("error", Json.str "Unauthorized access. Please log in first.")])
    ∧ ngsi_ld_proxy "GET" [("access_token", "t")] []
        (fun _ => BrokerOutcome.exception "x Connection refused y")
      = jsonResp 503 (Json.obj
          [("error", Json.str "Unable to connect to the NGSI-LD broker. The service may be unavailable."),
           ("technical_details", Json.str "x Connection refused y")])
    ∧ ngsi_ld_proxy "GET" [("access_token", "t")] []
        (fun _ => BrokerOutcome.exception "timed out")
      = jsonResp 500 (Json.obj
          [("error", Json.str "Error communicating with the NGSI-LD broker"),
           ("technical_details", Json.str "timed out")]) :=
  ⟨((proxy_failure_responses "GET" (by decide) [] []
      (fun _ => BrokerOutcome.exception "a") (fun _ => BrokerOutcome.exception "a") "a").1 rfl).1,
   (proxy_failure_responses "GET" (by decide) [("access_token", "t")] []
      (fun _ => BrokerOutcome.exception "x Connection refused y")
      (fun _ => BrokerOutcome.exception "x Connection refused y")
      "x Connection refused y").2.1 "t" rfl (by decide) rfl,
   (proxy_failure_responses "GET" (by decide) [("access_token", "t")] []
      (fun _ => BrokerOutcome.exception "timed out")
      (fun _ => BrokerOutcome.exception "timed out") "timed out").2.2 "t" rfl (by decide) rfl⟩

/- ---------------------------------------------------------------------
   Claim C7 (confirmed)
--------------------------------------------------------------------- -/

/-- Claim C7: an OPTIONS request is answered 200 with the fixed CORS
header set — origin star, allow-headers naming the tenant header,
and the declared methods — whatever the cookie jar holds and whatever the
broker would do; the answer is the same for any two broker behaviours,
so the broker is never consulted. -/
theorem options_preflight_short_circuit (cookies hs : List (String × String))
    (broker broker2 : List (String × String) → BrokerOutcome) :
    ngsi_ld_proxy "OPTIONS" cookies hs broker = corsPreflight
    ∧ ngsi_ld_proxy "OPTIONS" cookies hs broker
      = ngsi_ld_proxy "OPTIONS" cookies hs broker2
    ∧ corsPreflight.status = 200
    ∧ corsPreflight.headers =
      [("Access-Control-Allow-Origin", "*"),
       ("Access-Control-Allow-Headers", "Content-Type, Authorization, NGSILD-Tenant"),
       ("Access-Control-Allow-Methods", "GET, POST, PUT, DELETE, PATCH, OPTIONS")] :=
  ⟨rfl, rfl, rfl, rfl⟩

/- ---------------------------------------------------------------------
   Claim C8 (confirmed)
--------------------------------------------------------------------- -/

/-- Claim C8: when the submitted token decodes, verify-token answers 200,
sets the access cookie to the very token that was submitted (no new token
is minted — the handler takes no identity-provider outcome at all) with
max-age exp minus iat from the claims, falling back to the fixed default
3600 when both claims are absent, and writes the session user record. -/
theorem verify_token_cookie_and_session (fields : List (String × Json))
    (tok hh pp ss : String) (claims : ClaimMap) (sess : SessionState)
    (h1 : fields.lookup "access_token" = some (Json.str tok))
    (h2 : fields.isEmpty = false)
    (h3 : pySplitDot tok = [hh, pp, ss])
    (h4 : decodeClaims pp = some claims) :
    (∀ e i : Int, claims.lookup "exp" = some (Json.num e) →
      claims.lookup "iat" = some (Json.num i) →
      (verify_token (some fields) sess).1.status = 200
      ∧ (verify_token (some fields) sess).1.set_cookies.map
          (fun ck => (ck.name, ck.value, ck.max_age))
        = [("access_token", tok, some (e - i))]
      ∧ ((verify_token (some fields) sess).2).user
        = some { username := pyDictGet claims "preferred_username" (Json.str "unknown_user"),
                 tenant := resolveTenantFrom claims (Json.str "Default") })
    ∧ (claims.lookup "exp" = none → claims.lookup "iat" = none →
      (verify_token (some fields) sess).1.status = 200
      ∧ (verify_token (some fields) sess).1.set_cookies.map
          (fun ck => (ck.name, ck.value, ck.max_age))
        = [("access_token", tok, some 3600)]
      ∧ ((verify_token (some fields) sess).2).user
        = some { username := pyDictGet claims "preferred_username" (Json.str "unknown_user"),
                 tenant := resolveTenantFrom claims (Json.str "Default") }) := by
  constructor
  · intro e i he hi
    refine ⟨?_, ?_, ?_⟩ <;>
      simp [verify_token, h1, h2, h3, h4, pyDictGet, he, hi, jInt, tokenCookie]
  · intro he hi
    refine ⟨?_, ?_, ?_⟩ <;>
      simp [verify_token, h1, h2, h3, h4, pyDictGet, he, hi, jInt, tokenCookie]

/-- Claim C8, witness: a token whose payload carries exp 50 and iat 10
gets max-age 40, and one with an empty claim set gets the default 3600;
both echo the submitted token and establish the session user. -/
theorem verify_token_cookie_and_session_witness :
    (verify_token (some [("access_token", Json.str "h.eyJleHAiOjUwLCJpYXQiOjEwfQ.s")])
        { oauth_state := none, user := none, tenant := none }).1.set_cookies.map
        (fun ck => (ck.name, ck.value, ck.max_age))
      = [("access_token", "h.eyJleHAiOjUwLCJpYXQiOjEwfQ.s", some 40)]
    ∧ ((verify_token (some [("access_token", Json.str "h.eyJleHAiOjUwLCJpYXQiOjEwfQ.s")])
        { oauth_state := none, user := none, tenant := none }).2).user
      = some { username := Json.str "unknown_user", tenant := Json.str "Default" }
    ∧ (verify_token (some [("access_token", Json.str "h.e30.s")])
        { oauth_state := none, user := none, tenant := none }).1.set_cookies.map
        (fun ck => (ck.name, ck.value, ck.max_age))
      = [("access_token", "h.e30.s", some 3600)] :=
  ⟨((verify_token_cookie_and_session
      [("access_token", Json.str "h.eyJleHAiOjUwLCJpYXQiOjEwfQ.s")]
      "h.eyJleHAiOjUwLCJpYXQiOjEwfQ.s" "h" "eyJleHAiOjUwLCJpYXQiOjEwfQ" "s"
      [("exp", Json.num 50), ("iat", Json.num 10)]
      { oauth_state := none, user := none, tenant := none }
      rfl rfl rfl rfl).1 50 10 rfl rfl).2.1,
   ((verify_token_cookie_and_session
      [("access_token", Json.str "h.eyJleHAiOjUwLCJpYXQiOjEwfQ.s")]
      "h.eyJleHAiOjUwLCJpYXQiOjEwfQ.s" "h" "eyJleHAiOjUwLCJpYXQiOjEwfQ" "s"
      [("exp", Json.num 50), ("iat", Json.num 10)]
      { oauth_state := none, user := none, tenant := none }
      rfl rfl rfl rfl).1 50 10 rfl rfl).2.2,
   ((verify_token_cookie_and_session
      [("access_token", Json.str "h.e30.s")] "h.e30.s" "h" "e30" "s" []
      { oauth_state := none, user := none, tenant := none }
      rfl rfl rfl rfl).2 rfl rfl).2.1⟩

/- ---------------------------------------------------------------------
   Claim C9 (confirmed)
--------------------------------------------------------------------- -/

/-- Claim C9: the user-info endpoint answers 200 with authenticated false
when the access cookie is absent, 200 with authenticated false plus an
error field when the cookie's payload cannot be decoded, and its status
is 200 on every input whatsoever — it never surfaces a 500. -/
theorem get_user_info_never_500 (cookies : List (String × String))
    (sess : SessionState) :
    (cookies.lookup "access_token" = none →
      get_user_info cookies sess
        = (jsonResp 200 (Json.obj [("authenticated", Json.bool false)]), sess))
    ∧ (∀ tok, cookies.lookup "access_token" = some tok → ¬ tok = "" →
        getPayloadClaims tok = none →
        (get_user_info cookies sess).1
          = jsonResp 200 (Json.obj [("authenticated", Json.bool false),
                                    ("error", Json.str "token decode error")]))
    ∧ (get_user_info cookies sess).1.status = 200 := by
  refine ⟨?_, ?_, ?_⟩
  · intro hc
    simp [get_user_info, hc]
  · intro tok hc htok hdec
    simp [get_user_info, hc, htok, hdec]
  · cases hc : cookies.lookup "access_token" with
    | none => simp [get_user_info, hc, jsonResp]
    | some tok =>
      by_cases htok : tok == ""
      · simp [get_user_info, hc, htok, jsonResp]
      · cases hdec : getPayloadClaims tok with
        | none => simp [get_user_info, hc, htok, hdec, jsonResp]
        | some cm => simp [get_user_info, hc, htok, hdec, jsonResp]

/-- Claim C9, witness: no cookie and an undecodable cookie both give a
200 authenticated-false answer. -/
theorem get_user_info_never_500_witness :
    get_user_info [] { oauth_state := none, user := none, tenant := none }
      = (jsonResp 200 (Json.obj [("authenticated", Json.bool false)]),
         { oauth_state := none, user := none, tenant := none })
    ∧ (get_user_info [("access_token", "%%%")]
        { oauth_state := none, user := none, tenant := none }).1
      = jsonResp 200 (Json.obj [("authenticated", Json.bool false),
                                ("error", Json.str "token decode error")]) :=
  ⟨(get_user_info_never_500 [] { oauth_state := none, user := none, tenant := none }).1 rfl,
   (get_user_info_never_500 [("access_token", "%%%")]
      { oauth_state := none, user := none, tenant := none }).2.1 "%%%" rfl
      (by decide) rfl⟩

/- ---------------------------------------------------------------------
   Claim C10 (confirmed)
--------------------------------------------------------------------- -/

/-- Claim C10: when the exchange succeeds but the returned access token's
payload does not decode, both callback and refresh still complete — the
redirect or the 200 success body is returned with the access and refresh
cookies set from the token pair — and the session user record is left
exactly as it was. -/
theorem undecodable_token_flow_completes (st c' : String)
    (h1 : ¬ st = "") (h2 : ¬ c' = "")
    (u : Option UserRec) (t : Option Json) (f : String) (tp : TokenPair)
    (hd : getPayloadClaims tp.access_token = none)
    (cookies : List (String × String)) (sess2 : SessionState) (rt : String)
    (h3 : cookies.lookup "refresh_token" = some rt) (h4 : ¬ rt = "") :
    callback (some st) (some c') { oauth_state := some st, user := u, tenant := t } f
        (ExchangeOutcome.success tp)
      = ({ status := 302, body := RespBody.redirect f,
           set_cookies := [tokenCookie "access_token" tp.access_token tp.expires_in,
                           tokenCookie "refresh_token" tp.refresh_token (tp.expires_in * 2)],
           deleted_cookies := ["logged_out"], headers := [] },
         { oauth_state := some st, user := u, tenant := t })
    ∧ refresh_token cookies sess2 (ExchangeOutcome.success tp)
      = ({ status := 200,
           body := RespBody.jsonBody (Json.obj [("success", Json.bool true)]),
           set_cookies := [tokenCookie "access_token" tp.access_token tp.expires_in,
                           tokenCookie "refresh_token" tp.refresh_token (tp.expires_in * 2)],
           deleted_cookies := [], headers := [] },
         sess2) := by
  constructor
  · simp [callback, stateValid, h1, h2, storeUserFromToken, hd]
  · simp [refresh_token, h3, h4, storeUserFromToken, hd]

/-- Claim C10, witness: the flows completed with a dotless, undecodable
access token in the pair. -/
theorem undecodable_token_flow_completes_witness :
    callback (some "A") (some "c")
        { oauth_state := some "A", user := none, tenant := none } "http://app"
        (ExchangeOutcome.success
          { access_token := "garbage", refresh_token := "r", expires_in := 60 })
      = ({ status := 302, body := RespBody.redirect "http://app",
           set_cookies := [tokenCookie "access_token" "garbage" 60,
                           tokenCookie "refresh_token" "r" 120],
           deleted_cookies := ["logged_out"], headers := [] },
         { oauth_state := some "A", user := none, tenant := none })
    ∧ refresh_token [("refresh_token", "r")]
        { oauth_state := none, user := none, tenant := none }
        (ExchangeOutcome.success
          { access_token := "garbage", refresh_token := "r", expires_in := 60 })
      = ({ status := 200,
           body := RespBody.jsonBody (Json.obj [("success", Json.bool true)]),
           set_cookies := [tokenCookie "access_token" "garbage" 60,
                           tokenCookie "refresh_token" "r" 120],
           deleted_cookies := [], headers := [] },
         { oauth_state := none, user := none, tenant := none }) :=
  undecodable_token_flow_completes "A" "c" (by decide) (by decide) none none
    "http://app" { access_token := "garbage", refresh_token := "r", expires_in := 60 }
    rfl [("refresh_token", "r")] { oauth_state := none, user := none, tenant := none }
    "r" rfl (by decide)

end OrionLD
